import Mathlib

/-!
Verification development for the `Abastecimento` synchronization engine
(`src/hybrid_db.py` and `src/config.py`).

The engine keeps a session-local SQLite cache (tables `usuarios`, `clientes`,
`colaborador_cliente`, `documentos`) mirroring a Google-Sheets remote store
(central worksheets plus one `docs_<username>` worksheet per collaborator).
We shallowly embed the relevant operations as pure Lean functions over an
explicit state.  Remote I/O outcomes that depend on the network (an
`append_rows` call raising, a worksheet-creation call raising, a
`_load_sheet_to_local_table` call returning False) are passed in as explicit
boolean oracles, and every remote access performed by an operation is
recorded in a trace so that statements such as "no remote call is made" can
be expressed.
-/

namespace Abastecimento

/-! ### Primitives shared with the source

SQLite's NOCASE collation folds exactly the 26 upper-case ASCII letters to
lower case, which is precisely what `Char.toLower` does. -/

/-- Case-insensitive string equality, as used by `COLLATE NOCASE`
comparisons in the local SQLite queries (fold the 26 upper-case ASCII
letters — exactly what `Char.toLower` does — then compare). -/
def nocaseEq (s t : String) : Bool :=
  s.data.map Char.toLower == t.data.map Char.toLower

/-- Python truthiness of a nullable string value (`None` and the empty
string are falsy). -/
def pyTruthyStr : Option String → Bool
  | none => false
  | some s => !s.isEmpty

/-- `str(v)` applied to a nullable cell when serializing a row for
`append_rows`: Python renders `None` as the literal string `"None"`
(the code relies on this, see the `'None'` checks in the pull path). -/
def pyStrOpt : Option String → String
  | none => "None"
  | some s => s

/-! ### Config constants (from `src/config.py`) -/

/-- `config.DOCS_COLS`: canonical column order of a per-collaborator
document worksheet and of the local `documentos` table. -/
def DOCS_COLS : List String :=
  ["id", "colaborador_username", "cliente_nome", "cliente_id",
   "data_registro", "dimensao_criterio", "link_ou_documento", "quantidade",
   "status", "data_envio_original",
   "data_validacao", "validado_por", "observacoes_validacao"]

/-- `config.USERS_COLS`. -/
def USERS_COLS : List String :=
  ["username", "hashed_password", "nome_completo", "role", "last_sync_timestamp"]

/-- `config.CLIENTS_COLS`. -/
def CLIENTS_COLS : List String := ["id", "nome", "tipo"]

/-- `config.ASSOC_COLS` (final binding in config.py). -/
def ASSOC_COLS : List String := ["colaborador_username", "cliente_id"]

/-- `config.SHEET_USERS`. -/
def SHEET_USERS : String := "usuarios"

/-- `config.SHEET_CLIENTS`. -/
def SHEET_CLIENTS : String := "clientes"

/-- `config.SHEET_ASSOC`. -/
def SHEET_ASSOC : String := "colaborador_cliente"

/-- `HybridDBManager._get_user_sheet_name`: the per-collaborator document
worksheet is named by prepending `config.USER_DOCS_SHEET_PREFIX`
(the string `"docs_"`) to the username. -/
def get_user_sheet_name (username : String) : String :=
  "docs_" ++ username

/-! ### Local cache rows -/

/-- A row of the local `documentos` table.  All `config.DOCS_COLS` columns
are nullable TEXT except `id` (the primary key, always populated by the
engine); `is_synced` is the engine-only INTEGER flag (0 = Pending,
1 = Synced), modelled as a `Bool`. -/
structure Doc where
  id : String
  colaborador_username : Option String
  cliente_nome : Option String
  cliente_id : Option String
  data_registro : Option String
  dimensao_criterio : Option String
  link_ou_documento : Option String
  quantidade : Option String
  status : Option String
  data_envio_original : Option String
  data_validacao : Option String
  validado_por : Option String
  observacoes_validacao : Option String
  is_synced : Bool
deriving DecidableEq, Repr

/-- A row of the local `clientes` table (`id` PK, `nome` UNIQUE NOT NULL). -/
structure Cliente where
  id : String
  nome : String
  tipo : Option String
deriving DecidableEq, Repr

/-- A row of the local `usuarios` table. -/
structure Usuario where
  username : String
  hashed_password : Option String
  nome_completo : Option String
  role : Option String
  last_sync_timestamp : Option String
deriving DecidableEq, Repr

/-- The session-local SQLite cache.  `colaborador_cliente` rows are
`(colaborador_username, cliente_id)` pairs with that pair as primary key. -/
structure LocalDB where
  usuarios : List Usuario
  clientes : List Cliente
  colaborador_cliente : List (String × String)
  documentos : List Doc
deriving DecidableEq, Repr

/-! ### Remote store -/

/-- A worksheet of the remote spreadsheet: a header row plus data rows. -/
structure Worksheet where
  name : String
  header : List String
  rows : List (List String)
deriving DecidableEq, Repr

/-- Full synchronization state: local cache plus remote spreadsheet. -/
structure SyncState where
  db : LocalDB
  remote : List Worksheet
deriving DecidableEq, Repr

/-- One remote (Google Sheets API) access, for the call traces. -/
inductive RemoteCall where
  | getWorksheet (name : String)
  | addWorksheet (name : String)
  | appendRows (name : String) (count : Nat)
  | rowValues (name : String) (row : Nat)
  | findInColumn (name : String) (col : Nat)
  | updateCell (name : String)
  | batchUpdate (name : String) (count : Nat)
deriving DecidableEq, Repr

/-- `_get_worksheet`: look a worksheet up by title. -/
def getWorksheet (remote : List Worksheet) (name : String) : Option Worksheet :=
  remote.find? (fun ws => ws.name == name)

/-- Replace the worksheet(s) with the given title by an updated version. -/
def setWorksheet (remote : List Worksheet) (name : String)
    (f : Worksheet → Worksheet) : List Worksheet :=
  remote.map (fun ws => if ws.name == name then f ws else ws)

/-- The cell of a row at a 0-based column index; cells beyond the stored
row length read as the empty string (sheets are ragged grids). -/
def colCell (row : List String) (c : Nat) : String :=
  (row[c]?).getD ""

/-- Pad a row with empty cells up to length `n`. -/
def padTo (row : List String) (n : Nat) : List String :=
  row ++ List.replicate (n - row.length) ""

/-- Write a single cell of a row (0-based column index), padding as the
grid would. -/
def setRowCell (row : List String) (c : Nat) (v : String) : List String :=
  (padTo row (c + 1)).set c v

/-- Write one worksheet cell.  The row index is 1-based and counts the
header as row 1, matching gspread's `update_cell`/A1 addressing.  The
engine only ever updates cells of rows it has just located in the sheet,
so the row index is always in range. -/
def setSheetCell (ws : Worksheet) (r c : Nat) (v : String) : Worksheet :=
  if r = 1 then { ws with header := setRowCell ws.header c v }
  else { ws with rows := ws.rows.set (r - 2) (setRowCell ((ws.rows[r - 2]?).getD []) c v) }

/-- Read one worksheet cell, with the same 1-based, header-inclusive row
addressing as `setSheetCell`. -/
def sheetCellAt (ws : Worksheet) (r c : Nat) : String :=
  if r = 1 then colCell ws.header c else colCell ((ws.rows[r - 2]?).getD []) c

/-- gspread `ws.find(v, in_column = c+1)`: scan the column top-down,
header row included, returning the 1-based row index of the first exact
match. -/
def findInColumnIdx (ws : Worksheet) (c : Nat) (v : String) : Option Nat :=
  ((ws.header :: ws.rows).findIdx? (fun row => colCell row c == v)).map (· + 1)

/-- `SELECT id FROM clientes WHERE nome = ? COLLATE NOCASE` (fetch one). -/
def lookupClienteByNome (clientes : List Cliente) (nome : String) : Option Cliente :=
  clientes.find? (fun c => nocaseEq c.nome nome)

/-! ### The `doc_data` payload dictionary of `add_documento_local`

The caller hands a Python dict mapping column names to nullable values;
we embed it as an association list so that key presence (`col in doc_data`)
and dict `get` (absent and `None` both map to `none`) are distinguishable,
exactly as in the source. -/

/-- Payload dictionary: association list from column name to nullable value. -/
abbrev DocData := List (String × Option String)

/-- Dict lookup distinguishing a missing key (`none`) from a present key
(its stored, possibly-null value). -/
def ddGet (dd : DocData) (k : String) : Option (Option String) :=
  (dd.find? (fun p => p.1 == k)).map (fun p => p.2)

/-- Python `doc_data.get(k)`: `None` whether the key is absent or stored
as `None`. -/
def ddGetPy (dd : DocData) (k : String) : Option String :=
  (ddGet dd k).join

/-- Python `doc_data[k] = v`: overwrite in place, or add the key. -/
def ddSet (dd : DocData) (k : String) (v : Option String) : DocData :=
  if (dd.find? (fun p => p.1 == k)).isSome
  then dd.map (fun p => if p.1 == k then (k, v) else p)
  else dd ++ [(k, v)]

/-- The document id `add_documento_local` ends up inserting: the caller's
id when truthy, else the freshly generated UUID (`genId`). -/
def addFinalId (dd : DocData) (genId : String) : String :=
  if pyTruthyStr (ddGetPy dd "id") then (ddGetPy dd "id").getD "" else genId

/-! ### 4.2 Local create: `add_documento_local` -/

/-- Outcome of `add_documento_local`: the updated cache, the returned
boolean, and whether the client-name resolution error branch
(`st.error("Não foi possível encontrar o ID para o cliente ...")`)
was taken. -/
structure AddResult where
  db : LocalDB
  ok : Bool
  clienteLookupFailed : Bool
deriving DecidableEq, Repr

/-- Build the `Doc` row inserted by `add_documento_local` from the final
payload dictionary: for each column of `config.DOCS_COLS`, the payload's
value when the key is present (nulls kept), else NULL; `is_synced` is
forced to 0 unconditionally (it is handled before the payload is even
consulted). -/
def mkFinalDoc (dd : DocData) : Doc :=
  { id := ((ddGet dd "id").join).getD ""
    colaborador_username := (ddGet dd "colaborador_username").join
    cliente_nome := (ddGet dd "cliente_nome").join
    cliente_id := (ddGet dd "cliente_id").join
    data_registro := (ddGet dd "data_registro").join
    dimensao_criterio := (ddGet dd "dimensao_criterio").join
    link_ou_documento := (ddGet dd "link_ou_documento").join
    quantidade := (ddGet dd "quantidade").join
    status := (ddGet dd "status").join
    data_envio_original := (ddGet dd "data_envio_original").join
    data_validacao := (ddGet dd "data_validacao").join
    validado_por := (ddGet dd "validado_por").join
    observacoes_validacao := (ddGet dd "observacoes_validacao").join
    is_synced := false }

/-- The payload dictionary after the two in-place mutations at the top of
`add_documento_local` — id generation and client-name resolution — paired
with whether the resolution error branch was taken. -/
def addResolvedDict (db : LocalDB) (doc_data : DocData) (genId : String) :
    DocData × Bool :=
  let dd1 := if pyTruthyStr (ddGetPy doc_data "id") then doc_data
             else ddSet doc_data "id" (some genId)
  if !pyTruthyStr (ddGetPy dd1 "cliente_id") && pyTruthyStr (ddGetPy dd1 "cliente_nome") then
    match lookupClienteByNome db.clientes ((ddGetPy dd1 "cliente_nome").getD "") with
    | some c => (ddSet dd1 "cliente_id" (some c.id), false)
    | none => (dd1, true)
  else (dd1, false)

/-- `HybridDBManager.add_documento_local`.  `genId` stands for the
`uuid.uuid4()` drawn when the payload has no truthy id.  Steps, as in the
source: (1) generate the id if missing; (2) if no truthy `cliente_id` but a
truthy `cliente_nome`, resolve the name against `clientes` (NOCASE) — on
failure an error is shown but execution continues; (3) build the row over
`DOCS_COLS` with `is_synced = 0`; (4) `INSERT` — a primary-key violation is
caught by `_execute_local_sql` and surfaces as a failed insert
(`rowcount != 1`), returning `False` with the cache untouched. -/
def add_documento_local (db : LocalDB) (doc_data : DocData) (genId : String) :
    AddResult :=
  let resolved := addResolvedDict db doc_data genId
  let newDoc := mkFinalDoc resolved.1
  if db.documentos.any (fun d => d.id == newDoc.id) then
    ⟨db, false, resolved.2⟩
  else
    ⟨{ db with documentos := db.documentos ++ [newDoc] }, true, resolved.2⟩

/-! ### 4.3 Selective push: `save_selected_docs_to_sheets` -/

/-- Outcome of an operation on the full synchronization state: new state,
returned boolean, and the trace of remote accesses performed. -/
structure OpResult where
  st : SyncState
  ok : Bool
  trace : List RemoteCall
deriving DecidableEq, Repr

/-- The push selection predicate, i.e. the row filter of the `SELECT`
`... WHERE colaborador_username = ? COLLATE NOCASE AND id IN (...) AND
is_synced = 0` in `save_selected_docs_to_sheets` (NULL owners compare to
nothing). -/
def docMatchesSelection (username : String) (ids : List String) (d : Doc) : Bool :=
  (match d.colaborador_username with
   | some o => nocaseEq o username
   | none => false)
  && ids.contains d.id && !d.is_synced

/-- Reading a document column out of a selected row, for serialization. -/
def docCell (d : Doc) (col : String) : Option String :=
  if col == "id" then some d.id
  else if col == "colaborador_username" then d.colaborador_username
  else if col == "cliente_nome" then d.cliente_nome
  else if col == "cliente_id" then d.cliente_id
  else if col == "data_registro" then d.data_registro
  else if col == "dimensao_criterio" then d.dimensao_criterio
  else if col == "link_ou_documento" then d.link_ou_documento
  else if col == "quantidade" then d.quantidade
  else if col == "status" then d.status
  else if col == "data_envio_original" then d.data_envio_original
  else if col == "data_validacao" then d.data_validacao
  else if col == "validado_por" then d.validado_por
  else if col == "observacoes_validacao" then d.observacoes_validacao
  else none

/-- The per-row fix-up inside the push loop: if the fetched row has no
truthy `cliente_id` but a truthy `cliente_nome`, look the id up in the
local `clientes` table (this only affects the serialized row, never the
stored one). -/
def pushRowFix (db : LocalDB) (d : Doc) : Doc :=
  if !pyTruthyStr d.cliente_id && pyTruthyStr d.cliente_nome then
    match lookupClienteByNome db.clientes (d.cliente_nome.getD "") with
    | some c => { d with cliente_id := some c.id }
    | none => d
  else d

/-- Serialize one selected document into the list of cells appended to the
worksheet: `[str(row_dict.get(col, '')) for col in config.DOCS_COLS]`,
where SQL NULLs render as the string `"None"`. -/
def serializeDocRow (db : LocalDB) (d : Doc) : List String :=
  DOCS_COLS.map (fun col => pyStrOpt (docCell (pushRowFix db d) col))

/-- `HybridDBManager._update_last_sync_time_gsheet`: find the owner's row
in the `usuarios` worksheet (exact match in column 1), write `now` into its
`last_sync_timestamp` cell, and mirror the timestamp into the local
`usuarios` table.  The caller (`save_selected_docs_to_sheets`) ignores the
returned boolean. -/
def update_last_sync_time_gsheet (st : SyncState) (username now : String) :
    SyncState × Bool × List RemoteCall :=
  match getWorksheet st.remote SHEET_USERS with
  | none => (st, false, [.getWorksheet SHEET_USERS])
  | some ws =>
    match findInColumnIdx ws 0 username with
    | none => (st, false, [.getWorksheet SHEET_USERS, .findInColumn SHEET_USERS 1])
    | some rowIdx =>
      let tsCol := USERS_COLS.indexOf "last_sync_timestamp"
      let remote1 := setWorksheet st.remote SHEET_USERS (fun w => setSheetCell w rowIdx tsCol now)
      let usuarios1 := st.db.usuarios.map (fun u =>
        if u.username == username then { u with last_sync_timestamp := some now } else u)
      (⟨{ st.db with usuarios := usuarios1 }, remote1⟩, true,
       [.getWorksheet SHEET_USERS, .findInColumn SHEET_USERS 1, .updateCell SHEET_USERS])

/-- The tail of `save_selected_docs_to_sheets` from the `try: append_rows`
on: `appendOk` is whether the remote append succeeds (an exception leaves
the remote rows unwritten and returns `False`).  On success the local
`UPDATE documentos SET is_synced = 1 WHERE id IN (...) AND
colaborador_username = ?` runs — note this comparison is case-SENSITIVE,
unlike the NOCASE selection — followed by the last-sync-time update. -/
def pushAppendPhase (st : SyncState) (username sheetName now : String)
    (data_to_append : List (List String)) (saved_ids_confirm : List String)
    (appendOk : Bool) (tr : List RemoteCall) : OpResult :=
  if !appendOk then
    ⟨st, false, tr ++ [.appendRows sheetName data_to_append.length]⟩
  else
    let remote1 := setWorksheet st.remote sheetName
      (fun ws => { ws with rows := ws.rows ++ data_to_append })
    if saved_ids_confirm.isEmpty then
      ⟨{ st with remote := remote1 }, false, tr ++ [.appendRows sheetName data_to_append.length]⟩
    else
      let docs1 := st.db.documentos.map (fun d =>
        if saved_ids_confirm.contains d.id && d.colaborador_username == some username
        then { d with is_synced := true } else d)
      let st1 : SyncState := ⟨{ st.db with documentos := docs1 }, remote1⟩
      let r2 := update_last_sync_time_gsheet st1 username now
      ⟨r2.1, true, tr ++ [.appendRows sheetName data_to_append.length] ++ r2.2.2⟩

/-- `HybridDBManager.save_selected_docs_to_sheets`.  `createOk` is whether
the `add_worksheet` call succeeds when the owner's worksheet is missing;
`appendOk` is whether the `append_rows` call succeeds.  An empty id list
warns and returns `False` before touching anything; an empty selection
errors and returns `False`; creation failure returns `False`. -/
def save_selected_docs_to_sheets (st : SyncState) (username : String)
    (list_of_doc_ids : List String) (now : String) (createOk appendOk : Bool) :
    OpResult :=
  if list_of_doc_ids.isEmpty then ⟨st, false, []⟩
  else
    let sheetName := get_user_sheet_name username
    let docs_to_save := st.db.documentos.filter (docMatchesSelection username list_of_doc_ids)
    if docs_to_save.isEmpty then ⟨st, false, []⟩
    else
      let data_to_append := docs_to_save.map (serializeDocRow st.db)
      let saved_ids_confirm := docs_to_save.map (fun d => d.id)
      match getWorksheet st.remote sheetName with
      | some _ =>
        pushAppendPhase st username sheetName now data_to_append saved_ids_confirm
          appendOk [.getWorksheet sheetName]
      | none =>
        if createOk then
          pushAppendPhase
            { st with remote := st.remote ++ [⟨sheetName, DOCS_COLS, []⟩] }
            username sheetName now data_to_append saved_ids_confirm appendOk
            [.getWorksheet sheetName, .addWorksheet sheetName]
        else ⟨st, false, [.getWorksheet sheetName, .addWorksheet sheetName]⟩

/-! ### 4.4 Authoritative validation:
`update_document_status_gsheet_and_local` -/

/-- The four column/value pairs the validation writes
(`update_map` in the source; `now` is the shared timestamp). -/
def validateUpdateMap (new_status now admin_username observacoes : String) :
    List (String × String) :=
  [("status", new_status), ("data_validacao", now),
   ("validado_por", admin_username), ("observacoes_validacao", observacoes)]

/-- The batched cell updates actually sent: pairs of 0-based column index
(first occurrence of the column name in the worksheet header) and value;
columns absent from the header are skipped with a printed warning. -/
def validateBatch (header : List String) (new_status now admin_username observacoes : String) :
    List (Nat × String) :=
  (validateUpdateMap new_status now admin_username observacoes).filterMap
    (fun p => if header.contains p.1 then some (header.indexOf p.1, p.2) else none)

/-- Apply a batch of single-cell updates to a worksheet at a fixed
(1-based, header-inclusive) row index. -/
def applyBatch (ws : Worksheet) (rowIdx : Nat) (batch : List (Nat × String)) : Worksheet :=
  batch.foldl (fun w p => setSheetCell w rowIdx p.1 p.2) ws

/-- `HybridDBManager.update_document_status_gsheet_and_local`.  Steps, as
in the source: find the document locally by id (failure returns `False`
with no remote access); open the owner's worksheet (the sheet name is
built with an f-string, so a NULL owner yields `"docs_None"`); read the
header, locate the `id` column and the document's row; batch-update the
columns of `update_map` that exist in the header; finally update the local
row (all four fields plus `is_synced = 1`) and return `True` when exactly
one local row was affected. -/
def update_document_status_gsheet_and_local (st : SyncState)
    (doc_id new_status admin_username observacoes now : String) : OpResult :=
  match st.db.documentos.find? (fun d => d.id == doc_id) with
  | none => ⟨st, false, []⟩
  | some local_doc =>
    let sheetName := "docs_" ++ pyStrOpt local_doc.colaborador_username
    match getWorksheet st.remote sheetName with
    | none => ⟨st, false, [.getWorksheet sheetName]⟩
    | some ws =>
      let header_values := ws.header
      let tr0 : List RemoteCall := [.getWorksheet sheetName, .rowValues sheetName 1]
      if !header_values.contains "id" then ⟨st, false, tr0⟩
      else
        let id_col := header_values.indexOf "id"
        match findInColumnIdx ws id_col doc_id with
        | none => ⟨st, false, tr0 ++ [.findInColumn sheetName (id_col + 1)]⟩
        | some rowIdx =>
          let batch := validateBatch header_values new_status now admin_username observacoes
          let remote1 :=
            if batch.isEmpty then st.remote
            else setWorksheet st.remote sheetName (fun w => applyBatch w rowIdx batch)
          let tr1 := tr0 ++ [.findInColumn sheetName (id_col + 1)]
            ++ (if batch.isEmpty then [] else [.batchUpdate sheetName batch.length])
          let docs1 := st.db.documentos.map (fun d =>
            if d.id == doc_id then
              { d with status := some new_status, data_validacao := some now,
                       validado_por := some admin_username,
                       observacoes_validacao := some observacoes, is_synced := true }
            else d)
          let rows_updated := (st.db.documentos.filter (fun d => d.id == doc_id)).length
          ⟨⟨{ st.db with documentos := docs1 }, remote1⟩, rows_updated == 1, tr1⟩

/-! ### 4.5 Assignment manager: `assign_clients_to_collab` -/

/-- The local loop of `assign_clients_to_collab`: one `INSERT OR IGNORE
INTO colaborador_cliente` per requested client id against the growing
table; pairs whose insert reported `cursor.rowcount > 0` are collected for
the remote append.

Whether `INSERT OR IGNORE` ever ignores depends on the table's current
schema, carried here as `hasPk`.  `_create_local_tables` declares the
composite primary key `(colaborador_username, cliente_id)`, under which an
existing pair is ignored (`rowcount = 0`).  But the pull path reloads this
table with `_load_sheet_to_local_table(..., if_exists='replace')`, whose
`df.to_sql(table_name, conn, if_exists='replace')` DROPS the table and
recreates it from the DataFrame without any key whenever the remote
association sheet has at least one data row (only the missing/empty/
header-only sheet paths run `DELETE FROM`, which keeps the declared
schema).  On such a constraint-free table the insert always succeeds
(`rowcount = 1`), even for a pair already present. -/
def assignLoop (hasPk : Bool) (collab : String) (cur added : List (String × String)) :
    List String → List (String × String) × List (String × String)
  | [] => (cur, added)
  | cid :: rest =>
    if hasPk && cur.contains (collab, cid) then assignLoop hasPk collab cur added rest
    else assignLoop hasPk collab (cur ++ [(collab, cid)]) (added ++ [(collab, cid)]) rest

/-- The pairs the local loop reports freshly inserted (in insertion
order), i.e. exactly what `assign_clients_to_collab` goes on to append
remotely. -/
def assignNew (hasPk : Bool) (collab : String) (cur : List (String × String))
    (l : List String) : List (String × String) :=
  (assignLoop hasPk collab cur [] l).2

/-- `HybridDBManager.assign_clients_to_collab`.  Empty collaborator name or
empty id list: warn and return `False`.  Otherwise run the local
insert-or-ignore loop (`hasPk` is whether the session's
`colaborador_cliente` table still carries the composite primary key — see
`assignLoop`); if any insert reported `rowcount > 0`, append exactly those
pairs to the `colaborador_cliente` worksheet (`appendOk` models the remote
append raising; a missing worksheet or failed append returns `False`
without rolling back the local inserts). -/
def assign_clients_to_collab (st : SyncState) (collab : String)
    (client_ids : List String) (hasPk appendOk : Bool) : OpResult :=
  if collab.isEmpty || client_ids.isEmpty then ⟨st, false, []⟩
  else
    let r := assignLoop hasPk collab st.db.colaborador_cliente [] client_ids
    let db1 := { st.db with colaborador_cliente := r.1 }
    if r.2.isEmpty then ⟨⟨db1, st.remote⟩, true, []⟩
    else
      match getWorksheet st.remote SHEET_ASSOC with
      | none => ⟨⟨db1, st.remote⟩, false, [.getWorksheet SHEET_ASSOC]⟩
      | some _ =>
        if appendOk then
          ⟨⟨db1, setWorksheet st.remote SHEET_ASSOC
              (fun ws => { ws with rows := ws.rows ++ r.2.map (fun p => [p.1, p.2]) })⟩,
           true, [.getWorksheet SHEET_ASSOC, .appendRows SHEET_ASSOC r.2.length]⟩
        else
          ⟨⟨db1, st.remote⟩, false, [.getWorksheet SHEET_ASSOC, .appendRows SHEET_ASSOC r.2.length]⟩

/-! ### 4.1 Pull: `load_data_for_session`

The loading of a single worksheet into a local table
(`_load_sheet_to_local_table`) performs remote I/O and pandas processing;
its success/failure outcome per sheet name is passed in as the oracle
`loadOk`.  What we embed is the failure policy of
`load_data_for_session` itself: `usuarios` failing calls `st.stop()`
(fatal), `clientes` failing calls `st.stop()` (fatal), `colaborador_cliente`
failing only prints a warning, and any per-owner document sheet failing
sets a flag that surfaces one `st.warning` after the loop while the load
still completes (`st.session_state['data_loaded'] = True`). -/

/-- Outcome of `load_data_for_session`: whether `st.stop()` aborted the
pull, whether the association-sheet warning was printed, whether the
post-loop document warning was shown, and whether `data_loaded` was set. -/
structure PullResult where
  stopped : Bool
  assocWarning : Bool
  docsWarning : Bool
  dataLoaded : Bool
deriving DecidableEq, Repr

/-- `HybridDBManager.load_data_for_session` failure policy.  `userSheets`
is the list of per-owner document sheet names selected by the role. -/
def load_data_for_session (loadOk : String → Bool) (userSheets : List String) :
    PullResult :=
  if !loadOk SHEET_USERS then ⟨true, false, false, false⟩
  else if !loadOk SHEET_CLIENTS then ⟨true, false, false, false⟩
  else
    let assocWarn := !loadOk SHEET_ASSOC
    let all_docs_loaded := userSheets.foldl (fun acc s => acc && loadOk s) true
    ⟨false, assocWarn, !all_docs_loaded, true⟩

/-! ### Concrete scenarios used below -/

/-- A Pending document whose stored owner is `"ALICE"` (upper case). -/
def pushCaseDoc : Doc :=
  { id := "d1", colaborador_username := some "ALICE", cliente_nome := none,
    cliente_id := none, data_registro := none, dimensao_criterio := none,
    link_ou_documento := none, quantidade := none, status := some "Cadastrado",
    data_envio_original := none, data_validacao := none, validado_por := none,
    observacoes_validacao := none, is_synced := false }

/-- Cache holding only `pushCaseDoc`; the remote already has an empty
`docs_alice` worksheet with the canonical header. -/
def pushCaseState : SyncState :=
  ⟨⟨[], [], [], [pushCaseDoc]⟩, [⟨"docs_alice", DOCS_COLS, []⟩]⟩

/-- A payload carrying a client name but no client reference id. -/
def unresolvedPayload : DocData :=
  [("colaborador_username", some "alice"), ("cliente_nome", some "Acme")]

/-- A cache whose `clientes` table is empty, so the name `"Acme"` cannot
be resolved. -/
def emptyClientsDb : LocalDB := ⟨[], [], [], []⟩

/-- A Pending document owned by `"bob"`. -/
def bobDoc : Doc :=
  { id := "d1", colaborador_username := some "bob", cliente_nome := none,
    cliente_id := none, data_registro := none, dimensao_criterio := none,
    link_ou_documento := none, quantidade := none, status := some "Cadastrado",
    data_envio_original := none, data_validacao := none, validado_por := none,
    observacoes_validacao := none, is_synced := false }

/-- State whose remote `docs_bob` worksheet has a legacy two-column layout
(`id`, `status` only — none of the other validation columns). -/
def legacyHeaderState : SyncState :=
  ⟨⟨[], [], [], [bobDoc]⟩, [⟨"docs_bob", ["id", "status"], [["d1", "Cadastrado"]]⟩]⟩

/-- A `docs_bob` worksheet carrying the full canonical header, with
`bobDoc`'s row present. -/
def fullHeaderWs : Worksheet :=
  ⟨"docs_bob", DOCS_COLS,
   [["d1", "bob", "None", "None", "None", "None", "None", "None",
     "Cadastrado", "None", "None", "None", "None"]]⟩

/-- State whose remote `docs_bob` worksheet carries the full canonical
header, with `bobDoc`'s row present. -/
def fullHeaderState : SyncState :=
  ⟨⟨[], [], [], [bobDoc]⟩, [fullHeaderWs]⟩

/-- A small state for the assignment scenario: the pair `("bob", "c9")` is
already assigned both locally and remotely. -/
def assignCaseState : SyncState :=
  ⟨⟨[], [], [("bob", "c9")], []⟩,
   [⟨SHEET_ASSOC, ASSOC_COLS, [["bob", "c9"]]⟩]⟩

/-- An oracle under which every sheet loads fine except the central
association sheet `colaborador_cliente`. -/
def assocFailsOracle : String → Bool := fun s => !(s == SHEET_ASSOC)

/-! ## Helper lemmas -/

theorem docMatchesSelection_pending (username : String) (ids : List String)
    (d : Doc) (h : docMatchesSelection username ids d = true) :
    d.is_synced = false := by
  have h2 := h
  unfold docMatchesSelection at h2
  rcases Bool.and_eq_true_iff.mp h2 with ⟨-, h4⟩
  simpa using h4

theorem foldl_and_oracle (f : String → Bool) :
    ∀ (l : List String) (b : Bool),
      l.foldl (fun acc s => acc && f s) b = (b && l.all f) := by
  intro l
  induction l with
  | nil => intro b; simp
  | cons x xs ih => intro b; simp [List.foldl_cons, ih, Bool.and_assoc]

theorem ddGet_nil (k : String) : ddGet [] k = none := rfl

theorem ddGet_cons (q : String × Option String) (rest : DocData) (k : String) :
    ddGet (q :: rest) k = if (q.1 == k) = true then some q.2 else ddGet rest k := by
  unfold ddGet
  rw [List.find?_cons]
  cases h : (q.1 == k) <;> simp [h]

theorem ddGet_map_set_same {k : String} {v : Option String} :
    ∀ dd : DocData, (dd.find? (fun p => p.1 == k)).isSome = true →
      ddGet (dd.map (fun p => if p.1 == k then (k, v) else p)) k = some v := by
  intro dd
  induction dd with
  | nil => intro h; simp [List.find?] at h
  | cons p rest ih =>
    intro h
    by_cases hp : (p.1 == k) = true
    · rw [List.map_cons, if_pos hp, ddGet_cons]
      simp
    · rw [List.find?_cons_of_neg _ (by simpa using hp)] at h
      rw [List.map_cons, if_neg (by simpa using hp), ddGet_cons, if_neg (by simpa using hp)]
      exact ih h

theorem ddGet_append_same {k : String} {v : Option String} {dd : DocData}
    (h : dd.find? (fun p => p.1 == k) = none) :
    ddGet (dd ++ [(k, v)]) k = some v := by
  unfold ddGet
  rw [List.find?_append, h]
  simp

theorem ddGet_ddSet_same (dd : DocData) (k : String) (v : Option String) :
    ddGet (ddSet dd k v) k = some v := by
  unfold ddSet
  split
  · exact ddGet_map_set_same dd (by assumption)
  · rename_i h
    exact ddGet_append_same (Option.not_isSome_iff_eq_none.mp h)

theorem ddGet_map_set_other {k k2 : String} {v : Option String}
    (hne : (k == k2) = false) :
    ∀ dd : DocData,
      ddGet (dd.map (fun p => if p.1 == k then (k, v) else p)) k2 = ddGet dd k2 := by
  intro dd
  induction dd with
  | nil => rfl
  | cons p rest ih =>
    by_cases hp : (p.1 == k) = true
    · have hpk : p.1 = k := eq_of_beq hp
      have hpk2 : (p.1 == k2) = false := by rw [hpk]; exact hne
      rw [List.map_cons, if_pos hp, ddGet_cons, ddGet_cons, if_neg (by simp [hne]),
        if_neg (by simp [hpk2])]
      exact ih
    · rw [List.map_cons, if_neg (by simpa using hp), ddGet_cons, ddGet_cons]
      by_cases hk2 : (p.1 == k2) = true
      · rw [if_pos hk2, if_pos hk2]
      · rw [if_neg hk2, if_neg hk2]
        exact ih

theorem ddGet_ddSet_other (dd : DocData) (k k2 : String) (v : Option String)
    (hne : (k == k2) = false) :
    ddGet (ddSet dd k v) k2 = ddGet dd k2 := by
  unfold ddSet
  split
  · exact ddGet_map_set_other hne dd
  · unfold ddGet
    rw [List.find?_append]
    have : List.find? (fun p => p.1 == k2) [(k, v)] = none := by
      simp [List.find?, hne]
    rw [this]
    simp

theorem ddGetPy_truthy_eq {dd : DocData} {k : String}
    (h : pyTruthyStr (ddGetPy dd k) = true) :
    ddGet dd k = some (some ((ddGetPy dd k).getD "")) := by
  rcases hj : ddGetPy dd k with _ | s
  · rw [hj] at h; simp [pyTruthyStr] at h
  · have : (ddGet dd k).join = some s := hj
    rw [Option.join_eq_some] at this
    simpa [hj] using this

/-- The dictionary produced by the in-place mutations of
`add_documento_local` agrees with the original payload on every column
other than `id` and `cliente_id`. -/
theorem addResolvedDict_get_stable (db : LocalDB) (dd : DocData) (genId : String)
    (col : String) (h1 : ("id" == col) = false) (h2 : ("cliente_id" == col) = false) :
    ddGet ((addResolvedDict db dd genId).1) col = ddGet dd col := by
  simp only [addResolvedDict]
  set dd1 : DocData :=
    if pyTruthyStr (ddGetPy dd "id") = true then dd else ddSet dd "id" (some genId) with hdd1
  have hstable : ddGet dd1 col = ddGet dd col := by
    rw [hdd1]
    split
    · rfl
    · exact ddGet_ddSet_other dd "id" col (some genId) h1
  split
  · split
    · exact (ddGet_ddSet_other dd1 "cliente_id" col _ h2).trans hstable
    · exact hstable
  · exact hstable

/-- The mutated dictionary always carries the final document id
(the caller's truthy id, else the generated UUID). -/
theorem addResolvedDict_id (db : LocalDB) (dd : DocData) (genId : String) :
    ddGet ((addResolvedDict db dd genId).1) "id" = some (some (addFinalId dd genId)) := by
  simp only [addResolvedDict]
  set dd1 : DocData :=
    if pyTruthyStr (ddGetPy dd "id") = true then dd else ddSet dd "id" (some genId) with hdd1
  have hid : ddGet dd1 "id" = some (some (addFinalId dd genId)) := by
    rw [hdd1]
    unfold addFinalId
    split
    · rename_i h
      exact ddGetPy_truthy_eq h
    · exact ddGet_ddSet_same dd "id" (some genId)
  split
  · split
    · exact (ddGet_ddSet_other dd1 "cliente_id" "id" _ (by decide)).trans hid
    · exact hid
  · exact hid

theorem colCell_padTo (row : List String) (n c : Nat) :
    colCell (padTo row n) c = colCell row c := by
  unfold colCell padTo
  by_cases h : c < row.length
  · rw [List.getElem?_append_left h]
  · rw [List.getElem?_append_right (Nat.le_of_not_lt h)]
    rw [List.getElem?_eq_none (Nat.le_of_not_lt h)]
    rw [List.getElem?_replicate]
    split <;> rfl

theorem padTo_length_ge (row : List String) (n : Nat) : n ≤ (padTo row n).length := by
  unfold padTo
  rw [List.length_append, List.length_replicate]
  omega

theorem setRowCell_same (row : List String) (c : Nat) (v : String) :
    colCell (setRowCell row c v) c = v := by
  unfold setRowCell colCell
  rw [List.getElem?_set_self (Nat.lt_of_lt_of_le (Nat.lt_succ_self c) (padTo_length_ge row (c + 1)))]
  rfl

theorem setRowCell_other (row : List String) (c c2 : Nat) (v : String) (h : c ≠ c2) :
    colCell (setRowCell row c v) c2 = colCell row c2 := by
  unfold setRowCell
  have h1 : colCell ((padTo row (c + 1)).set c v) c2 = colCell (padTo row (c + 1)) c2 := by
    unfold colCell
    rw [List.getElem?_set_ne h]
  rw [h1, colCell_padTo]

theorem setSheetCell_name (ws : Worksheet) (r c : Nat) (v : String) :
    (setSheetCell ws r c v).name = ws.name := by
  unfold setSheetCell
  split <;> rfl

theorem setSheetCell_rows_length (ws : Worksheet) (r c : Nat) (v : String) :
    (setSheetCell ws r c v).rows.length = ws.rows.length := by
  unfold setSheetCell
  split
  · rfl
  · simp [List.length_set]

theorem sheetCellAt_setSheetCell_same (ws : Worksheet) (r c : Nat) (v : String)
    (hr : r = 1 ∨ r - 2 < ws.rows.length) :
    sheetCellAt (setSheetCell ws r c v) r c = v := by
  unfold setSheetCell sheetCellAt
  by_cases h1 : r = 1
  · rw [if_pos h1, if_pos h1]
    exact setRowCell_same ws.header c v
  · rw [if_neg h1, if_neg h1]
    rcases hr with h | h
    · exact absurd h h1
    · dsimp only
      rw [List.getElem?_set_self h]
      exact setRowCell_same _ c v

theorem sheetCellAt_setSheetCell_other (ws : Worksheet) (r c c2 : Nat) (v : String)
    (h : c ≠ c2) :
    sheetCellAt (setSheetCell ws r c v) r c2 = sheetCellAt ws r c2 := by
  by_cases h1 : r = 1
  · simp only [setSheetCell, sheetCellAt, if_pos h1]
    exact setRowCell_other ws.header c c2 v h
  · simp only [setSheetCell, sheetCellAt, if_neg h1]
    rw [List.getElem?_set_self']
    rcases h2 : ws.rows[r - 2]? with _ | row
    · rfl
    · show colCell (setRowCell row c v) c2 = colCell row c2
      exact setRowCell_other row c c2 v h

theorem applyBatch_name (ridx : Nat) :
    ∀ (batch : List (Nat × String)) (ws : Worksheet),
      (applyBatch ws ridx batch).name = ws.name := by
  intro batch
  induction batch with
  | nil => intro ws; rfl
  | cons p rest ih =>
    intro ws
    show (applyBatch (setSheetCell ws ridx p.1 p.2) ridx rest).name = ws.name
    rw [ih, setSheetCell_name]

theorem applyBatch_rows_length (ridx : Nat) :
    ∀ (batch : List (Nat × String)) (ws : Worksheet),
      (applyBatch ws ridx batch).rows.length = ws.rows.length := by
  intro batch
  induction batch with
  | nil => intro ws; rfl
  | cons p rest ih =>
    intro ws
    show (applyBatch (setSheetCell ws ridx p.1 p.2) ridx rest).rows.length = ws.rows.length
    rw [ih, setSheetCell_rows_length]

theorem applyBatch_cell_untouched (ridx j : Nat) :
    ∀ (batch : List (Nat × String)) (ws : Worksheet),
      (∀ q ∈ batch, q.1 ≠ j) →
      sheetCellAt (applyBatch ws ridx batch) ridx j = sheetCellAt ws ridx j := by
  intro batch
  induction batch with
  | nil => intro ws _; rfl
  | cons q rest ih =>
    intro ws hall
    show sheetCellAt (applyBatch (setSheetCell ws ridx q.1 q.2) ridx rest) ridx j = _
    rw [ih _ (fun p hp => hall p (List.mem_cons_of_mem q hp))]
    exact sheetCellAt_setSheetCell_other ws ridx q.1 j q.2 (hall q (List.mem_cons_self q rest))

theorem applyBatch_cell (ridx j : Nat) (v : String) :
    ∀ (batch : List (Nat × String)) (ws : Worksheet),
      (j, v) ∈ batch →
      (∀ q ∈ batch, q.1 = j → q.2 = v) →
      (ridx = 1 ∨ ridx - 2 < ws.rows.length) →
      sheetCellAt (applyBatch ws ridx batch) ridx j = v := by
  intro batch
  induction batch with
  | nil => intro ws hmem; cases hmem
  | cons q rest ih =>
    intro ws hmem huniq hr
    show sheetCellAt (applyBatch (setSheetCell ws ridx q.1 q.2) ridx rest) ridx j = v
    by_cases hrest : (j, v) ∈ rest
    · refine ih _ hrest (fun p hp h => huniq p (List.mem_cons_of_mem q hp) h) ?_
      rcases hr with h | h
      · exact Or.inl h
      · exact Or.inr (by rw [setSheetCell_rows_length]; exact h)
    · have hq : q = (j, v) := by
        rcases List.mem_cons.mp hmem with h | h
        · exact h.symm
        · exact absurd h hrest
      have hnone : ∀ p ∈ rest, p.1 ≠ j := by
        rintro ⟨p1, p2⟩ hp hpj
        have hpv := huniq (p1, p2) (List.mem_cons_of_mem q hp) hpj
        dsimp only at hpj hpv
        subst hpj
        subst hpv
        exact hrest hp
      rw [applyBatch_cell_untouched ridx j rest _ hnone, hq]
      exact sheetCellAt_setSheetCell_same ws ridx j v hr

theorem getWorksheet_setWorksheet (n : String) (f : Worksheet → Worksheet)
    (hf : ∀ w, (f w).name = w.name) :
    ∀ remote : List Worksheet,
      getWorksheet (setWorksheet remote n f) n = (getWorksheet remote n).map f := by
  intro remote
  induction remote with
  | nil => rfl
  | cons w rest ih =>
    by_cases h : (w.name == n) = true
    · have h2 : ((f w).name == n) = true := by rw [hf]; exact h
      show List.find? (fun ws => ws.name == n)
          ((if (w.name == n) = true then f w else w) :: setWorksheet rest n f)
          = Option.map f (List.find? (fun ws => ws.name == n) (w :: rest))
      rw [if_pos h]
      rw [List.find?_cons_of_pos (p := fun ws : Worksheet => ws.name == n) _ h2]
      rw [List.find?_cons_of_pos (p := fun ws : Worksheet => ws.name == n) _ h]
      rfl
    · show List.find? (fun ws => ws.name == n)
          ((if (w.name == n) = true then f w else w) :: setWorksheet rest n f)
          = Option.map f (List.find? (fun ws => ws.name == n) (w :: rest))
      rw [if_neg h]
      rw [List.find?_cons_of_neg (p := fun ws : Worksheet => ws.name == n) _ h]
      rw [List.find?_cons_of_neg (p := fun ws : Worksheet => ws.name == n) _ h]
      exact ih

theorem contains_eq_true_iff {α : Type} [BEq α] [LawfulBEq α] {l : List α} {a : α} :
    l.contains a = true ↔ a ∈ l := by
  show l.elem a = true ↔ a ∈ l
  exact List.elem_iff

theorem count_eq_one_of_mem_nodup {α : Type} [BEq α] [LawfulBEq α] :
    ∀ {l : List α} {a : α}, l.Nodup → a ∈ l → l.count a = 1 := by
  intro l
  induction l with
  | nil => intro a _ h; cases h
  | cons b rest ih =>
    intro a hnd hmem
    rw [List.nodup_cons] at hnd
    rcases List.mem_cons.mp hmem with h | h
    · subst h
      rw [List.count_cons_self]
      rw [List.count_eq_zero_of_not_mem hnd.1]
    · have hne : a ≠ b := fun hab => hnd.1 (hab ▸ h)
      rw [List.count_cons_of_ne hne]
      exact ih hnd.2 h

theorem keys_nodup_value_unique {α β : Type} [DecidableEq α] :
    ∀ {l : List (α × β)}, (l.map Prod.fst).Nodup →
      ∀ {k : α} {a b : β}, (k, a) ∈ l → (k, b) ∈ l → a = b := by
  intro l
  induction l with
  | nil => intro _ k a b ha; cases ha
  | cons p rest ih =>
    intro hnd k a b ha hb
    rw [List.map_cons, List.nodup_cons] at hnd
    rcases List.mem_cons.mp ha with h1 | h1
    · rcases List.mem_cons.mp hb with h2 | h2
      · have h3 : ((k, a) : α × β) = (k, b) := h1.trans h2.symm
        simpa using h3
      · exfalso
        apply hnd.1
        have hk : k ∈ rest.map Prod.fst := List.mem_map_of_mem Prod.fst h2
        rw [← h1]
        exact hk
    · rcases List.mem_cons.mp hb with h2 | h2
      · exfalso
        apply hnd.1
        have hk : k ∈ rest.map Prod.fst := List.mem_map_of_mem Prod.fst h1
        rw [← h2]
        exact hk
      · exact ih hnd.2 h1 h2

theorem validateBatch_mem {header : List String} {new_status now admin_username observacoes : String}
    {col v : String}
    (hmem : (col, v) ∈ validateUpdateMap new_status now admin_username observacoes)
    (hcol : col ∈ header) :
    (header.indexOf col, v) ∈ validateBatch header new_status now admin_username observacoes := by
  unfold validateBatch
  rw [List.mem_filterMap]
  refine ⟨(col, v), hmem, ?_⟩
  rw [if_pos (contains_eq_true_iff.mpr hcol)]

theorem validateBatch_uniq {header : List String} {new_status now admin_username observacoes : String}
    {col v : String}
    (hmem : (col, v) ∈ validateUpdateMap new_status now admin_username observacoes)
    (hcol : col ∈ header) :
    ∀ q ∈ validateBatch header new_status now admin_username observacoes,
      q.1 = header.indexOf col → q.2 = v := by
  intro q hq hq1
  unfold validateBatch at hq
  rw [List.mem_filterMap] at hq
  rcases hq with ⟨⟨c2, v2⟩, hmem2, hf⟩
  by_cases hc2 : header.contains c2 = true
  · rw [if_pos hc2] at hf
    have hq2 : q = (header.indexOf c2, v2) := by
      exact (Option.some.injEq _ _ ▸ hf).symm
    have hcc : c2 = col := by
      have h1 : header.indexOf c2 = header.indexOf col := by
        rw [hq2] at hq1
        exact hq1
      exact (List.indexOf_inj (contains_eq_true_iff.mp hc2) hcol).mp h1
    have hv : v2 = v := by
      apply keys_nodup_value_unique (l := validateUpdateMap new_status now admin_username observacoes)
      · unfold validateUpdateMap
        simp
      · rw [← hcc] at hmem
        exact hmem2
      · rw [← hcc] at hmem
        exact hmem
    rw [hq2, hv]
  · rw [if_neg hc2] at hf
    cases hf

theorem assignLoop_cons_mem (collab : String) (cur added : List (String × String))
    (cid : String) (rest : List String) (h : cur.contains (collab, cid) = true) :
    assignLoop true collab cur added (cid :: rest) = assignLoop true collab cur added rest := by
  unfold assignLoop
  rw [if_pos (by rw [Bool.true_and]; exact h)]
  cases rest <;> rfl

theorem assignLoop_cons_new (collab : String) (cur added : List (String × String))
    (cid : String) (rest : List String) (h : cur.contains (collab, cid) = false) :
    assignLoop true collab cur added (cid :: rest)
      = assignLoop true collab (cur ++ [(collab, cid)]) (added ++ [(collab, cid)]) rest := by
  unfold assignLoop
  rw [if_neg (by rw [Bool.true_and, h]; exact Bool.false_ne_true)]
  cases rest <;> rfl

theorem assignLoop_added (collab : String) :
    ∀ (l : List String) (cur added : List (String × String)),
      (assignLoop true collab cur added l).2 = added ++ (assignLoop true collab cur [] l).2 := by
  intro l
  induction l with
  | nil => intro cur added; simp [assignLoop]
  | cons cid rest ih =>
    intro cur added
    by_cases h : cur.contains (collab, cid) = true
    · rw [assignLoop_cons_mem collab cur added cid rest h,
        assignLoop_cons_mem collab cur [] cid rest h]
      exact ih cur added
    · have h2 : cur.contains (collab, cid) = false := by simpa using h
      rw [assignLoop_cons_new collab cur added cid rest h2,
        assignLoop_cons_new collab cur [] cid rest h2]
      rw [ih (cur ++ [(collab, cid)]) (added ++ [(collab, cid)]),
        ih (cur ++ [(collab, cid)]) ([] ++ [(collab, cid)])]
      simp

theorem assignLoop_cur (collab : String) :
    ∀ (l : List String) (cur added : List (String × String)),
      (assignLoop true collab cur added l).1 = cur ++ (assignLoop true collab cur [] l).2 := by
  intro l
  induction l with
  | nil => intro cur added; simp [assignLoop]
  | cons cid rest ih =>
    intro cur added
    by_cases h : cur.contains (collab, cid) = true
    · rw [assignLoop_cons_mem collab cur added cid rest h,
        assignLoop_cons_mem collab cur [] cid rest h]
      exact ih cur added
    · have h2 : cur.contains (collab, cid) = false := by simpa using h
      rw [assignLoop_cons_new collab cur added cid rest h2,
        assignLoop_cons_new collab cur [] cid rest h2]
      rw [ih (cur ++ [(collab, cid)]) (added ++ [(collab, cid)])]
      rw [assignLoop_added collab rest (cur ++ [(collab, cid)]) ([] ++ [(collab, cid)])]
      simp

theorem assignNew_cons_mem (collab : String) (cur : List (String × String))
    (cid : String) (rest : List String) (h : cur.contains (collab, cid) = true) :
    assignNew true collab cur (cid :: rest) = assignNew true collab cur rest := by
  unfold assignNew
  rw [assignLoop_cons_mem collab cur [] cid rest h]

theorem assignNew_cons_new (collab : String) (cur : List (String × String))
    (cid : String) (rest : List String) (h : cur.contains (collab, cid) = false) :
    assignNew true collab cur (cid :: rest)
      = (collab, cid) :: assignNew true collab (cur ++ [(collab, cid)]) rest := by
  unfold assignNew
  rw [assignLoop_cons_new collab cur [] cid rest h]
  rw [assignLoop_added collab rest (cur ++ [(collab, cid)]) ([] ++ [(collab, cid)])]
  simp

theorem assignNew_mem (collab : String) :
    ∀ (l : List String) (cur : List (String × String)) (p : String × String),
      p ∈ assignNew true collab cur l → p ∉ cur ∧ p.1 = collab ∧ p.2 ∈ l := by
  intro l
  induction l with
  | nil =>
    intro cur p hp
    simp [assignNew, assignLoop] at hp
  | cons cid rest ih =>
    intro cur p hp
    by_cases h : cur.contains (collab, cid) = true
    · rw [assignNew_cons_mem collab cur cid rest h] at hp
      obtain ⟨h1, h2, h3⟩ := ih cur p hp
      exact ⟨h1, h2, List.mem_cons_of_mem cid h3⟩
    · have h2 : cur.contains (collab, cid) = false := by simpa using h
      rw [assignNew_cons_new collab cur cid rest h2] at hp
      rcases List.mem_cons.mp hp with h3 | h3
      · subst h3
        refine ⟨?_, rfl, List.mem_cons_self cid rest⟩
        intro hmem
        have hcontra := contains_eq_true_iff.mpr hmem
        rw [h2] at hcontra
        cases hcontra
      · obtain ⟨h4, h5, h6⟩ := ih (cur ++ [(collab, cid)]) p h3
        refine ⟨fun hcm => h4 (List.mem_append_left _ hcm), h5,
          List.mem_cons_of_mem cid h6⟩

theorem assignNew_nodup (collab : String) :
    ∀ (l : List String) (cur : List (String × String)),
      (assignNew true collab cur l).Nodup := by
  intro l
  induction l with
  | nil => intro cur; simp [assignNew, assignLoop]
  | cons cid rest ih =>
    intro cur
    by_cases h : cur.contains (collab, cid) = true
    · rw [assignNew_cons_mem collab cur cid rest h]
      exact ih cur
    · have h2 : cur.contains (collab, cid) = false := by simpa using h
      rw [assignNew_cons_new collab cur cid rest h2]
      rw [List.nodup_cons]
      refine ⟨?_, ih (cur ++ [(collab, cid)])⟩
      intro hmem
      obtain ⟨h4, -, -⟩ := assignNew_mem collab rest (cur ++ [(collab, cid)]) _ hmem
      exact h4 (by simp)

theorem assignNew_complete (collab : String) :
    ∀ (l : List String) (cur : List (String × String)) (cid : String),
      cid ∈ l → (collab, cid) ∈ cur ++ assignNew true collab cur l := by
  intro l
  induction l with
  | nil => intro cur cid h; cases h
  | cons cid2 rest ih =>
    intro cur cid hm
    by_cases h : cur.contains (collab, cid2) = true
    · rw [assignNew_cons_mem collab cur cid2 rest h]
      rcases List.mem_cons.mp hm with h1 | h1
      · subst h1
        exact List.mem_append_left _ (contains_eq_true_iff.mp h)
      · exact ih cur cid h1
    · have h2 : cur.contains (collab, cid2) = false := by simpa using h
      rw [assignNew_cons_new collab cur cid2 rest h2]
      rcases List.mem_cons.mp hm with h1 | h1
      · subst h1
        simp
      · have h3 := ih (cur ++ [(collab, cid2)]) cid h1
        simp only [List.mem_append, List.mem_cons, List.mem_singleton] at h3 ⊢
        tauto

theorem assignNew_all_mem_nil (collab : String) :
    ∀ (l : List String) (cur : List (String × String)),
      (∀ cid ∈ l, (collab, cid) ∈ cur) → assignNew true collab cur l = [] := by
  intro l
  induction l with
  | nil => intro cur _; rfl
  | cons cid rest ih =>
    intro cur hall
    have hc : cur.contains (collab, cid) = true :=
      contains_eq_true_iff.mpr (hall cid (List.mem_cons_self cid rest))
    rw [assignNew_cons_mem collab cur cid rest hc]
    exact ih cur (fun c hcm => hall c (List.mem_cons_of_mem cid hcm))

/-- `assign_clients_to_collab` on a table that still carries its composite
primary key, past its guards, with the local loop expressed through
`assignNew`. -/
theorem assign_clients_eq (st : SyncState) (collab : String) (ids : List String)
    (appendOk : Bool) (hc : collab.isEmpty = false) (hi : ids.isEmpty = false) :
    assign_clients_to_collab st collab ids true appendOk =
      (if (assignNew true collab st.db.colaborador_cliente ids).isEmpty then
        ⟨⟨{ st.db with colaborador_cliente :=
            st.db.colaborador_cliente ++ assignNew true collab st.db.colaborador_cliente ids },
          st.remote⟩, true, []⟩
      else
        match getWorksheet st.remote SHEET_ASSOC with
        | none =>
          ⟨⟨{ st.db with colaborador_cliente :=
              st.db.colaborador_cliente ++ assignNew true collab st.db.colaborador_cliente ids },
            st.remote⟩, false, [.getWorksheet SHEET_ASSOC]⟩
        | some _ =>
          if appendOk then
            ⟨⟨{ st.db with colaborador_cliente :=
                st.db.colaborador_cliente ++ assignNew true collab st.db.colaborador_cliente ids },
              setWorksheet st.remote SHEET_ASSOC (fun ws =>
                { ws with rows := ws.rows ++ (assignNew true collab st.db.colaborador_cliente ids).map (fun p => [p.1, p.2]) })⟩,
             true, [.getWorksheet SHEET_ASSOC,
               .appendRows SHEET_ASSOC (assignNew true collab st.db.colaborador_cliente ids).length]⟩
          else
            ⟨⟨{ st.db with colaborador_cliente :=
                st.db.colaborador_cliente ++ assignNew true collab st.db.colaborador_cliente ids },
              st.remote⟩,
             false, [.getWorksheet SHEET_ASSOC,
               .appendRows SHEET_ASSOC (assignNew true collab st.db.colaborador_cliente ids).length]⟩) := by
  simp only [assign_clients_to_collab]
  rw [hc, hi]
  simp only [Bool.or_self, Bool.false_eq_true, if_false]
  rw [assignLoop_cur collab ids st.db.colaborador_cliente []]
  rfl

theorem findInColumnIdx_bound {ws : Worksheet} {c : Nat} {v : String} {ridx : Nat}
    (h : findInColumnIdx ws c v = some ridx) :
    ridx = 1 ∨ ridx - 2 < ws.rows.length := by
  unfold findInColumnIdx at h
  rw [Option.map_eq_some'] at h
  rcases h with ⟨i, hi, hridx⟩
  rw [List.findIdx?_eq_some_iff_getElem] at hi
  rcases hi with ⟨hlt, -, -⟩
  rw [List.length_cons] at hlt
  omega

theorem add_documento_local_eq (db : LocalDB) (dd : DocData) (genId : String) :
    add_documento_local db dd genId =
      if db.documentos.any (fun d => d.id == (mkFinalDoc (addResolvedDict db dd genId).1).id) then
        ⟨db, false, (addResolvedDict db dd genId).2⟩
      else
        ⟨{ db with documentos := db.documentos ++ [mkFinalDoc (addResolvedDict db dd genId).1] },
          true, (addResolvedDict db dd genId).2⟩ := rfl

/-! ## The claims -/

/-- C1: if the remote append raises during `save_selected_docs_to_sheets`,
the function returns `False`, no local document row is modified, and in
particular every document matching the push selection still has
`is_synced = 0` (Pending).  `sync_state` is flipped only in the branch in
which the append succeeded. -/
theorem push_append_failure_leaves_all_pending (st : SyncState)
    (username now : String) (ids : List String) (createOk : Bool) :
    (save_selected_docs_to_sheets st username ids now createOk false).ok = false ∧
    (save_selected_docs_to_sheets st username ids now createOk false).st.db.documentos
      = st.db.documentos ∧
    ∀ d ∈ (save_selected_docs_to_sheets st username ids now createOk false).st.db.documentos,
      docMatchesSelection username ids d = true → d.is_synced = false := by
  have hmain :
      (save_selected_docs_to_sheets st username ids now createOk false).ok = false ∧
      (save_selected_docs_to_sheets st username ids now createOk false).st.db.documentos
        = st.db.documentos := by
    by_cases h1 : ids.isEmpty = true
    · simp [save_selected_docs_to_sheets, h1]
    · by_cases h2 : (st.db.documentos.filter (docMatchesSelection username ids)).isEmpty = true
      · simp [save_selected_docs_to_sheets, h1, h2]
      · rcases hws : getWorksheet st.remote (get_user_sheet_name username) with _ | ws
        · by_cases h3 : createOk = true
          · simp [save_selected_docs_to_sheets, h1, h2, hws, h3, pushAppendPhase]
          · simp [save_selected_docs_to_sheets, h1, h2, hws, h3]
        · simp [save_selected_docs_to_sheets, h1, h2, hws, pushAppendPhase]
  exact ⟨hmain.1, hmain.2, fun d _ hd => docMatchesSelection_pending username ids d hd⟩

/-- C2 (code bug): pushing id `d1` as user `alice` when the stored owner is
`ALICE` — the NOCASE selection picks the row up and it is appended to the
remote worksheet, the call returns `True`, yet the case-sensitive local
`UPDATE ... AND colaborador_username = ?` matches nothing, so the row stays
Pending, contradicting both the claim and the function's own docstring
("marks them as synced locally"). -/
theorem push_casefold_owner_appended_but_left_pending :
    (save_selected_docs_to_sheets pushCaseState "alice" ["d1"] "t0" true true).ok = true ∧
    (save_selected_docs_to_sheets pushCaseState "alice" ["d1"] "t0" true true).st.db.documentos.map
        (fun d => (d.id, d.is_synced)) = [("d1", false)] ∧
    ((getWorksheet (save_selected_docs_to_sheets pushCaseState "alice" ["d1"] "t0" true true).st.remote
        "docs_alice").map (fun ws => ws.rows.map (fun row => colCell row 0))) = some ["d1"] := by
  decide

/-- C3 counterexample: a local create whose payload has a client name
(`"Acme"`) but no client id, against a cache with no matching client:
the claim says the create fails and inserts nothing, but the code shows
the error and then inserts the row anyway (null `cliente_id`) and returns
`True`. -/
theorem adddoc_unresolved_name_inserts_anyway :
    (add_documento_local emptyClientsDb unresolvedPayload "gid1").ok = true ∧
    (add_documento_local emptyClientsDb unresolvedPayload "gid1").clienteLookupFailed = true ∧
    (add_documento_local emptyClientsDb unresolvedPayload "gid1").db.documentos.map
        (fun d => (d.id, d.cliente_id, d.is_synced)) = [("gid1", none, false)] := by
  refine ⟨rfl, rfl, rfl⟩

/-- C3 amended: when the payload supplies a client name but no client
reference id and the name resolves to no local client, the resolution
failure is reported (the error branch is taken), but the create is NOT
rejected: as long as the insert itself succeeds (fresh id), the row is
inserted with a null `cliente_id`, Pending, and the call returns `True`. -/
theorem adddoc_unresolved_name_reports_and_inserts_null_ref
    (db : LocalDB) (dd : DocData) (genId : String)
    (hcid : ddGet dd "cliente_id" = none)
    (hnm : pyTruthyStr (ddGetPy dd "cliente_nome") = true)
    (hlk : lookupClienteByNome db.clientes ((ddGetPy dd "cliente_nome").getD "") = none)
    (hfresh : db.documentos.any (fun d => d.id == addFinalId dd genId) = false) :
    (add_documento_local db dd genId).ok = true ∧
    (add_documento_local db dd genId).clienteLookupFailed = true ∧
    ∃ d, (add_documento_local db dd genId).db.documentos = db.documentos ++ [d] ∧
      d.cliente_id = none ∧ d.is_synced = false := by
  have hget1 : ddGet (if pyTruthyStr (ddGetPy dd "id") = true then dd
      else ddSet dd "id" (some genId)) "cliente_id" = none := by
    split
    · exact hcid
    · rw [ddGet_ddSet_other dd "id" "cliente_id" (some genId) (by decide)]
      exact hcid
  have hgetn : ddGetPy (if pyTruthyStr (ddGetPy dd "id") = true then dd
      else ddSet dd "id" (some genId)) "cliente_nome" = ddGetPy dd "cliente_nome" := by
    have h : ddGet (if pyTruthyStr (ddGetPy dd "id") = true then dd
        else ddSet dd "id" (some genId)) "cliente_nome" = ddGet dd "cliente_nome" := by
      split
      · rfl
      · exact ddGet_ddSet_other dd "id" "cliente_nome" (some genId) (by decide)
    show (ddGet (if pyTruthyStr (ddGetPy dd "id") = true then dd
      else ddSet dd "id" (some genId)) "cliente_nome").join = (ddGet dd "cliente_nome").join
    rw [h]
  have hcidPy : pyTruthyStr (ddGetPy (if pyTruthyStr (ddGetPy dd "id") = true then dd
      else ddSet dd "id" (some genId)) "cliente_id") = false := by
    show pyTruthyStr ((ddGet (if pyTruthyStr (ddGetPy dd "id") = true then dd
      else ddSet dd "id" (some genId)) "cliente_id").join) = false
    rw [hget1]
    rfl
  have hpair : addResolvedDict db dd genId
      = (if pyTruthyStr (ddGetPy dd "id") = true then dd else ddSet dd "id" (some genId),
         true) := by
    simp only [addResolvedDict]
    rw [hcidPy, hgetn, hnm, hlk]
    simp
  have hid1 : ddGet (if pyTruthyStr (ddGetPy dd "id") = true then dd
      else ddSet dd "id" (some genId)) "id" = some (some (addFinalId dd genId)) := by
    have h := addResolvedDict_id db dd genId
    rw [hpair] at h
    exact h
  have hdid : (mkFinalDoc (if pyTruthyStr (ddGetPy dd "id") = true then dd
      else ddSet dd "id" (some genId))).id = addFinalId dd genId := by
    show ((ddGet (if pyTruthyStr (ddGetPy dd "id") = true then dd
      else ddSet dd "id" (some genId)) "id").join).getD "" = addFinalId dd genId
    rw [hid1]
    rfl
  have hdcid : (mkFinalDoc (if pyTruthyStr (ddGetPy dd "id") = true then dd
      else ddSet dd "id" (some genId))).cliente_id = none := by
    show (ddGet (if pyTruthyStr (ddGetPy dd "id") = true then dd
      else ddSet dd "id" (some genId)) "cliente_id").join = none
    rw [hget1]
    rfl
  rw [add_documento_local_eq, hpair]
  simp only [hdid, hfresh]
  exact ⟨rfl, rfl, ⟨mkFinalDoc (if pyTruthyStr (ddGetPy dd "id") = true then dd
      else ddSet dd "id" (some genId)), rfl, hdcid, rfl⟩⟩

/-- C3 amended witness: the concrete unresolved-name create succeeds and
inserts the null-reference row. -/
theorem adddoc_unresolved_name_reports_witness :
    (add_documento_local emptyClientsDb unresolvedPayload "gid1").ok = true ∧
    (add_documento_local emptyClientsDb unresolvedPayload "gid1").clienteLookupFailed = true ∧
    ∃ d, (add_documento_local emptyClientsDb unresolvedPayload "gid1").db.documentos
        = emptyClientsDb.documentos ++ [d] ∧ d.cliente_id = none ∧ d.is_synced = false :=
  adddoc_unresolved_name_reports_and_inserts_null_ref emptyClientsDb unresolvedPayload "gid1"
    (by decide) (by decide) (by decide) (by decide)

/-- C4: every accepted local create inserts exactly one new row whose
`is_synced` flag is 0 (Pending) — no caller-supplied value can override it,
since the `is_synced` column is handled before the payload is consulted —
and whose validation fields are NULL whenever the payload did not supply
them. -/
theorem adddoc_forces_pending_and_null_validation (db : LocalDB) (dd : DocData)
    (genId : String) (hok : (add_documento_local db dd genId).ok = true) :
    ∃ d, (add_documento_local db dd genId).db.documentos = db.documentos ++ [d] ∧
      d.is_synced = false ∧
      (ddGet dd "data_validacao" = none → d.data_validacao = none) ∧
      (ddGet dd "validado_por" = none → d.validado_por = none) ∧
      (ddGet dd "observacoes_validacao" = none → d.observacoes_validacao = none) := by
  by_cases hcond :
      db.documentos.any (fun d => d.id == (mkFinalDoc (addResolvedDict db dd genId).1).id) = true
  · rw [add_documento_local_eq, if_pos hcond] at hok
    cases hok
  · refine ⟨mkFinalDoc (addResolvedDict db dd genId).1, ?_, rfl, ?_, ?_, ?_⟩
    · rw [add_documento_local_eq, if_neg hcond]
    · intro h
      show (ddGet (addResolvedDict db dd genId).1 "data_validacao").join = none
      rw [addResolvedDict_get_stable db dd genId "data_validacao" (by decide) (by decide), h]
      rfl
    · intro h
      show (ddGet (addResolvedDict db dd genId).1 "validado_por").join = none
      rw [addResolvedDict_get_stable db dd genId "validado_por" (by decide) (by decide), h]
      rfl
    · intro h
      show (ddGet (addResolvedDict db dd genId).1 "observacoes_validacao").join = none
      rw [addResolvedDict_get_stable db dd genId "observacoes_validacao" (by decide) (by decide), h]
      rfl

/-- C4 witness: a payload that even tries to smuggle `is_synced = 1` in —
the inserted row is still Pending with NULL validation fields. -/
theorem adddoc_forces_pending_witness :
    ∃ d, (add_documento_local emptyClientsDb
        [("is_synced", some "1"), ("status", some "Cadastrado"),
         ("colaborador_username", some "u")] "w4").db.documentos
        = emptyClientsDb.documentos ++ [d] ∧
      d.is_synced = false ∧
      (ddGet [(("is_synced" : String), some "1"), ("status", some "Cadastrado"),
         ("colaborador_username", some "u")] "data_validacao" = none → d.data_validacao = none) ∧
      (ddGet [(("is_synced" : String), some "1"), ("status", some "Cadastrado"),
         ("colaborador_username", some "u")] "validado_por" = none → d.validado_por = none) ∧
      (ddGet [(("is_synced" : String), some "1"), ("status", some "Cadastrado"),
         ("colaborador_username", some "u")] "observacoes_validacao" = none →
          d.observacoes_validacao = none) :=
  adddoc_forces_pending_and_null_validation emptyClientsDb
    [("is_synced", some "1"), ("status", some "Cadastrado"),
     ("colaborador_username", some "u")] "w4" (by decide)

/-- C5 counterexample: validating against a legacy remote layout whose
header is only `[id, status]`.  The validate succeeds and the local row
receives all four values (`status`, `data_validacao`, `validado_por`,
`observacoes_validacao`) plus `is_synced = 1`, but the remote worksheet —
shown in full — only received the status: no remote cell holds the notes,
timestamp, or validator, so local and remote do NOT agree on those three
fields, contradicting the claim. -/
theorem validate_legacy_header_remote_misses_notes :
    (update_document_status_gsheet_and_local legacyHeaderState "d1" "Validado" "adm" "obs" "t1").ok
        = true ∧
    (update_document_status_gsheet_and_local legacyHeaderState "d1" "Validado" "adm" "obs" "t1").st.db.documentos.map
        (fun d => (d.status, d.data_validacao, d.validado_por, d.observacoes_validacao, d.is_synced))
      = [(some "Validado", some "t1", some "adm", some "obs", true)] ∧
    getWorksheet
        (update_document_status_gsheet_and_local legacyHeaderState "d1" "Validado" "adm" "obs" "t1").st.remote
        "docs_bob"
      = some ⟨"docs_bob", ["id", "status"], [["d1", "Validado"]]⟩ := by
  decide

/-- C5 amended: after a successful validate, the LOCAL row carries the new
status, timestamp, validator and notes and `is_synced = 1`; on the REMOTE
side, exactly the columns of the batched update map that are present in
the worksheet header receive the same values (in the document's row) —
columns absent from a legacy header are skipped, so agreement is
guaranteed only for columns the remote layout has. -/
theorem validate_success_mirrors_local_and_present_columns (st : SyncState)
    (doc_id new_status admin_username observacoes now : String) (d : Doc)
    (ws : Worksheet) (ridx : Nat)
    (hfind : st.db.documentos.find? (fun x => x.id == doc_id) = some d)
    (hdup : (st.db.documentos.filter (fun x => x.id == doc_id)).length = 1)
    (hws : getWorksheet st.remote ("docs_" ++ pyStrOpt d.colaborador_username) = some ws)
    (hid : ws.header.contains "id" = true)
    (hrow : findInColumnIdx ws (ws.header.indexOf "id") doc_id = some ridx) :
    (update_document_status_gsheet_and_local st doc_id new_status admin_username observacoes now).ok
        = true ∧
    (∀ x ∈ (update_document_status_gsheet_and_local st doc_id new_status admin_username
          observacoes now).st.db.documentos,
        x.id = doc_id →
          x.status = some new_status ∧ x.data_validacao = some now ∧
            x.validado_por = some admin_username ∧
            x.observacoes_validacao = some observacoes ∧ x.is_synced = true) ∧
    (∀ col v, (col, v) ∈ validateUpdateMap new_status now admin_username observacoes →
      col ∈ ws.header →
        ∃ ws2, getWorksheet (update_document_status_gsheet_and_local st doc_id new_status
              admin_username observacoes now).st.remote
            ("docs_" ++ pyStrOpt d.colaborador_username) = some ws2 ∧
          sheetCellAt ws2 ridx (ws.header.indexOf col) = v) := by
  unfold update_document_status_gsheet_and_local
  simp only [hfind, hws, hid, Bool.not_true, Bool.false_eq_true, if_false, hrow]
  refine ⟨?_, ?_, ?_⟩
  · rw [hdup]
    rfl
  · intro x hx hxid
    rcases List.mem_map.mp hx with ⟨y, hy, hxy⟩
    by_cases hyid : (y.id == doc_id) = true
    · rw [← hxy, if_pos hyid]
      exact ⟨rfl, rfl, rfl, rfl, rfl⟩
    · exfalso
      apply hyid
      rw [if_neg hyid] at hxy
      have hyd : y.id = doc_id := by rw [hxy]; exact hxid
      exact beq_iff_eq.mpr hyd
  · intro col v hmem hcol
    have hbm := validateBatch_mem hmem hcol
    have hbne :
        (validateBatch ws.header new_status now admin_username observacoes).isEmpty = false := by
      cases hb : (validateBatch ws.header new_status now admin_username observacoes).isEmpty
      · rfl
      · rw [List.isEmpty_iff] at hb
        rw [hb] at hbm
        cases hbm
    rw [hbne]
    simp only [Bool.false_eq_true, if_false]
    rw [getWorksheet_setWorksheet ("docs_" ++ pyStrOpt d.colaborador_username)
        (fun w => applyBatch w ridx (validateBatch ws.header new_status now admin_username observacoes))
        (fun w => applyBatch_name ridx _ w) st.remote, hws]
    refine ⟨applyBatch ws ridx (validateBatch ws.header new_status now admin_username observacoes),
      rfl, ?_⟩
    exact applyBatch_cell ridx (ws.header.indexOf col) v _ ws hbm
      (validateBatch_uniq hmem hcol) (findInColumnIdx_bound hrow)

/-- C5 amended witness: validating against the full canonical header —
every one of the four columns is present, so every remote cell mirrors the
local value. -/
theorem validate_mirrors_witness :
    (update_document_status_gsheet_and_local fullHeaderState "d1" "Validado" "adm" "obs" "t1").ok
        = true ∧
    (∀ x ∈ (update_document_status_gsheet_and_local fullHeaderState "d1" "Validado" "adm"
          "obs" "t1").st.db.documentos,
        x.id = "d1" →
          x.status = some "Validado" ∧ x.data_validacao = some "t1" ∧
            x.validado_por = some "adm" ∧
            x.observacoes_validacao = some "obs" ∧ x.is_synced = true) ∧
    (∀ col v, (col, v) ∈ validateUpdateMap "Validado" "t1" "adm" "obs" →
      col ∈ fullHeaderWs.header →
        ∃ ws2, getWorksheet (update_document_status_gsheet_and_local fullHeaderState "d1"
              "Validado" "adm" "obs" "t1").st.remote
            ("docs_" ++ pyStrOpt bobDoc.colaborador_username) = some ws2 ∧
          sheetCellAt ws2 2 (fullHeaderWs.header.indexOf col) = v) :=
  validate_success_mirrors_local_and_present_columns fullHeaderState "d1" "Validado" "adm"
    "obs" "t1" bobDoc fullHeaderWs 2 (by decide) (by decide) (by decide) (by decide) (by decide)

/-- C6: validating a document id that is not in the local `documentos`
table returns `False` immediately: the state is unchanged and the remote
call trace is empty (no lookup, no write). -/
theorem validate_missing_local_id_no_remote_call (st : SyncState)
    (doc_id new_status admin_username observacoes now : String)
    (h : st.db.documentos.find? (fun d => d.id == doc_id) = none) :
    update_document_status_gsheet_and_local st doc_id new_status admin_username observacoes now
      = ⟨st, false, []⟩ := by
  unfold update_document_status_gsheet_and_local
  rw [h]

/-- C6 witness. -/
theorem validate_missing_local_id_no_remote_call_witness :
    update_document_status_gsheet_and_local legacyHeaderState "zz" "Validado" "adm" "obs" "t1"
      = ⟨legacyHeaderState, false, []⟩ :=
  validate_missing_local_id_no_remote_call legacyHeaderState "zz" "Validado" "adm" "obs" "t1" rfl

/-- C7 counterexample: when loading the central association sheet
`colaborador_cliente` fails (all other sheets fine), the pull is NOT
aborted — `st.stop()` is never reached, only a warning is printed, and the
session is marked as loaded.  This falsifies the claim that failure of any
of the three central collections is fatal. -/
theorem pull_assoc_load_failure_not_fatal :
    (load_data_for_session assocFailsOracle ["docs_u1"]).stopped = false ∧
    (load_data_for_session assocFailsOracle ["docs_u1"]).dataLoaded = true ∧
    (load_data_for_session assocFailsOracle ["docs_u1"]).assocWarning = true := by
  refine ⟨rfl, rfl, rfl⟩

/-- C7 amended: only the `usuarios` and `clientes` loads are fatal to the
pull; a failed `colaborador_cliente` load merely warns and the reload
continues, and failed per-owner document sheets produce the post-loop
warning while `data_loaded` is still set. -/
theorem pull_failure_policy (loadOk : String → Bool) (userSheets : List String) :
    (load_data_for_session loadOk userSheets).stopped
        = !(loadOk SHEET_USERS && loadOk SHEET_CLIENTS) ∧
    (load_data_for_session loadOk userSheets).dataLoaded
        = (loadOk SHEET_USERS && loadOk SHEET_CLIENTS) ∧
    (load_data_for_session loadOk userSheets).assocWarning
        = (loadOk SHEET_USERS && loadOk SHEET_CLIENTS && !loadOk SHEET_ASSOC) ∧
    (load_data_for_session loadOk userSheets).docsWarning
        = (loadOk SHEET_USERS && loadOk SHEET_CLIENTS && !(userSheets.all loadOk)) := by
  unfold load_data_for_session
  cases hu : loadOk SHEET_USERS <;> cases hc : loadOk SHEET_CLIENTS <;>
    simp [hu, hc, foldl_and_oracle]

/-- C8 counterexample: pushing an empty selection returns `False` (with a
warning), not the success the claim states. -/
theorem push_empty_selection_concrete_failure :
    (save_selected_docs_to_sheets assignCaseState "bob" [] "t0" true true).ok = false := rfl

/-- C8 amended: pushing an empty selection is a pure no-op that returns
FAILURE: the state is untouched and no remote call is made, but the
returned value is `False`, not success. -/
theorem push_empty_selection_noop_failure (st : SyncState) (username now : String)
    (createOk appendOk : Bool) :
    save_selected_docs_to_sheets st username [] now createOk appendOk
      = ⟨st, false, []⟩ := rfl

/-- On a `colaborador_cliente` table that still carries its composite
primary key (`hasPk = true`, i.e. the session's pull took the
missing/empty-sheet path), assignment add does behave idempotently:
calling `assign_clients_to_collab` a second time with the same
collaborator and id list is a complete no-op (state unchanged, returns
`True`, no remote call); after the first call each requested pair occurs
exactly once in the local table; and the rows appended to the remote
association worksheet contain each pair at most once and never contain a
pair that already existed locally before the call.  This is the behaviour
the insert-or-ignore plus `rowcount > 0` gating is written for — see
`assign_no_key_duplicates_and_reappends` for what happens once a pull has
recreated the table without the key. -/
theorem assign_twice_idempotent_with_key (st : SyncState) (collab : String) (ids : List String)
    (hc : collab.isEmpty = false) (hi : ids.isEmpty = false)
    (hnd : st.db.colaborador_cliente.Nodup) :
    (assign_clients_to_collab (assign_clients_to_collab st collab ids true true).st collab ids true true).st
        = (assign_clients_to_collab st collab ids true true).st ∧
    (assign_clients_to_collab (assign_clients_to_collab st collab ids true true).st collab ids true true).ok
        = true ∧
    (assign_clients_to_collab (assign_clients_to_collab st collab ids true true).st collab ids true true).trace
        = [] ∧
    (∀ cid ∈ ids,
      List.count (collab, cid)
        (assign_clients_to_collab st collab ids true true).st.db.colaborador_cliente = 1) ∧
    (∀ ws0, getWorksheet st.remote SHEET_ASSOC = some ws0 →
      ∃ ws2 newRows,
        getWorksheet (assign_clients_to_collab st collab ids true true).st.remote SHEET_ASSOC
            = some ws2 ∧
        ws2.rows = ws0.rows ++ newRows ∧
        (∀ cid : String, List.count [collab, cid] newRows ≤ 1) ∧
        (∀ cid : String, (collab, cid) ∈ st.db.colaborador_cliente → [collab, cid] ∉ newRows)) := by
  have hdb1 : (assign_clients_to_collab st collab ids true true).st.db.colaborador_cliente
      = st.db.colaborador_cliente ++ assignNew true collab st.db.colaborador_cliente ids := by
    rw [assign_clients_eq st collab ids true hc hi]
    by_cases hne : (assignNew true collab st.db.colaborador_cliente ids).isEmpty = true
    · rw [if_pos hne]
    · rw [if_neg hne]
      rcases hw : getWorksheet st.remote SHEET_ASSOC with _ | ws0
      · rfl
      · rfl
  have hcomplete : ∀ cid ∈ ids, (collab, cid)
      ∈ st.db.colaborador_cliente ++ assignNew true collab st.db.colaborador_cliente ids :=
    fun cid hcid => assignNew_complete collab ids st.db.colaborador_cliente cid hcid
  have hnew2 : assignNew true collab
      ((assign_clients_to_collab st collab ids true true).st.db.colaborador_cliente) ids = [] := by
    rw [hdb1]
    exact assignNew_all_mem_nil collab ids _ hcomplete
  have hr2 : assign_clients_to_collab (assign_clients_to_collab st collab ids true true).st collab ids true true
      = ⟨⟨{ (assign_clients_to_collab st collab ids true true).st.db with colaborador_cliente :=
            (assign_clients_to_collab st collab ids true true).st.db.colaborador_cliente ++ [] },
          (assign_clients_to_collab st collab ids true true).st.remote⟩, true, []⟩ := by
    rw [assign_clients_eq _ collab ids true hc hi, hnew2]
    rfl
  have hst2 : (assign_clients_to_collab (assign_clients_to_collab st collab ids true true).st
        collab ids true true).st
      = (assign_clients_to_collab st collab ids true true).st := by
    rw [hr2, List.append_nil]
  refine ⟨hst2, by rw [hr2], by rw [hr2], ?_, ?_⟩
  · intro cid hcid
    rw [hdb1]
    have hdisj : st.db.colaborador_cliente.Disjoint
        (assignNew true collab st.db.colaborador_cliente ids) :=
      fun a ha hb => (assignNew_mem collab ids st.db.colaborador_cliente a hb).1 ha
    have hnodup : (st.db.colaborador_cliente
        ++ assignNew true collab st.db.colaborador_cliente ids).Nodup :=
      hnd.append (assignNew_nodup collab ids st.db.colaborador_cliente) hdisj
    exact count_eq_one_of_mem_nodup hnodup (hcomplete cid hcid)
  · intro ws0 hws0
    by_cases hne : (assignNew true collab st.db.colaborador_cliente ids).isEmpty = true
    · have hr1 : assign_clients_to_collab st collab ids true true
          = ⟨⟨{ st.db with colaborador_cliente :=
              st.db.colaborador_cliente ++ assignNew true collab st.db.colaborador_cliente ids },
            st.remote⟩, true, []⟩ := by
        rw [assign_clients_eq st collab ids true hc hi, if_pos hne]
      refine ⟨ws0, [], ?_, (List.append_nil ws0.rows).symm, ?_, ?_⟩
      · rw [hr1]
        exact hws0
      · intro cid
        simp
      · intro cid _
        simp
    · have hr1 : assign_clients_to_collab st collab ids true true
          = ⟨⟨{ st.db with colaborador_cliente :=
                st.db.colaborador_cliente ++ assignNew true collab st.db.colaborador_cliente ids },
              setWorksheet st.remote SHEET_ASSOC (fun ws =>
                { ws with rows := ws.rows ++ (assignNew true collab st.db.colaborador_cliente ids).map (fun p => [p.1, p.2]) })⟩,
             true, [.getWorksheet SHEET_ASSOC,
               .appendRows SHEET_ASSOC (assignNew true collab st.db.colaborador_cliente ids).length]⟩ := by
        rw [assign_clients_eq st collab ids true hc hi, if_neg hne, hws0]
        rfl
      refine ⟨⟨ws0.name, ws0.header,
          ws0.rows ++ (assignNew true collab st.db.colaborador_cliente ids).map (fun p => [p.1, p.2])⟩,
        (assignNew true collab st.db.colaborador_cliente ids).map (fun p => [p.1, p.2]),
        ?_, rfl, ?_, ?_⟩
      · rw [hr1]
        have hg := getWorksheet_setWorksheet SHEET_ASSOC
          (fun ws => { ws with rows := ws.rows ++ (assignNew true collab st.db.colaborador_cliente ids).map (fun p => [p.1, p.2]) })
          (fun w => rfl) st.remote
        show getWorksheet (setWorksheet st.remote SHEET_ASSOC (fun ws =>
            { ws with rows := ws.rows ++ (assignNew true collab st.db.colaborador_cliente ids).map (fun p => [p.1, p.2]) })) SHEET_ASSOC
          = some ⟨ws0.name, ws0.header,
              ws0.rows ++ (assignNew true collab st.db.colaborador_cliente ids).map (fun p => [p.1, p.2])⟩
        rw [hg, hws0]
        rfl
      · have hinj : Function.Injective (fun p : String × String => [p.1, p.2]) := by
          rintro ⟨a1, a2⟩ ⟨b1, b2⟩ hab
          simp only [List.cons.injEq, and_true] at hab
          rw [hab.1, hab.2]
        have hnodupRows :=
          (assignNew_nodup collab ids st.db.colaborador_cliente).map hinj
        intro cid
        by_cases hmem : ([collab, cid] : List String)
            ∈ (assignNew true collab st.db.colaborador_cliente ids).map (fun p => [p.1, p.2])
        · exact Nat.le_of_eq (count_eq_one_of_mem_nodup hnodupRows hmem)
        · rw [List.count_eq_zero_of_not_mem hmem]
          exact Nat.zero_le 1
      · intro cid hmemA hmemRows
        rcases List.mem_map.mp hmemRows with ⟨⟨p1, p2⟩, hp, heq⟩
        simp only [List.cons.injEq, and_true] at heq
        rcases heq with ⟨h1, h2⟩
        refine (assignNew_mem collab ids st.db.colaborador_cliente (p1, p2) hp).1 ?_
        rw [h1, h2]
        exact hmemA

/-- Instance of `assign_twice_idempotent_with_key`: assigning
`["c1", "c9"]` to `bob` twice, with the key intact, when `("bob", "c9")`
is already assigned both locally and remotely. -/
theorem assign_twice_idempotent_with_key_witness :
    (assign_clients_to_collab (assign_clients_to_collab assignCaseState "bob" ["c1", "c9"] true true).st
        "bob" ["c1", "c9"] true true).st
      = (assign_clients_to_collab assignCaseState "bob" ["c1", "c9"] true true).st ∧
    (assign_clients_to_collab (assign_clients_to_collab assignCaseState "bob" ["c1", "c9"] true true).st
        "bob" ["c1", "c9"] true true).ok = true ∧
    (assign_clients_to_collab (assign_clients_to_collab assignCaseState "bob" ["c1", "c9"] true true).st
        "bob" ["c1", "c9"] true true).trace = [] ∧
    (∀ cid ∈ ["c1", "c9"],
      List.count ("bob", cid)
        (assign_clients_to_collab assignCaseState "bob" ["c1", "c9"] true true).st.db.colaborador_cliente
        = 1) ∧
    (∀ ws0, getWorksheet assignCaseState.remote SHEET_ASSOC = some ws0 →
      ∃ ws2 newRows,
        getWorksheet (assign_clients_to_collab assignCaseState "bob" ["c1", "c9"] true true).st.remote
            SHEET_ASSOC = some ws2 ∧
        ws2.rows = ws0.rows ++ newRows ∧
        (∀ cid : String, List.count ["bob", cid] newRows ≤ 1) ∧
        (∀ cid : String, ("bob", cid) ∈ assignCaseState.db.colaborador_cliente →
          ["bob", cid] ∉ newRows)) :=
  assign_twice_idempotent_with_key assignCaseState "bob" ["c1", "c9"] (by decide) (by decide)
    (by decide)

/-- C9 (code bug): in any session whose pull loaded a non-empty
`colaborador_cliente` sheet, `df.to_sql(..., if_exists='replace')` has
recreated the local table WITHOUT the composite primary key declared in
`_create_local_tables`, so `INSERT OR IGNORE` never ignores
(`hasPk = false`).  Starting from `("bob", "c9")` assigned both locally
and remotely — exactly the state such a pull produces — two identical
`assign_clients_to_collab("bob", ["c1", "c9"])` calls both return `True`,
yet the pre-existing pair ends up three times in the local table and the
remote association sheet ends with three `["bob", "c9"]` rows (the
pre-existing pair was re-appended on each call), falsifying the
idempotency that the insert-or-ignore and `rowcount > 0` gating — and
the spec's P5 — promise. -/
theorem assign_no_key_duplicates_and_reappends :
    (assign_clients_to_collab assignCaseState "bob" ["c1", "c9"] false true).ok = true ∧
    (assign_clients_to_collab
        (assign_clients_to_collab assignCaseState "bob" ["c1", "c9"] false true).st
        "bob" ["c1", "c9"] false true).ok = true ∧
    List.count ("bob", "c9")
        (assign_clients_to_collab
          (assign_clients_to_collab assignCaseState "bob" ["c1", "c9"] false true).st
          "bob" ["c1", "c9"] false true).st.db.colaborador_cliente = 3 ∧
    (getWorksheet
        (assign_clients_to_collab
          (assign_clients_to_collab assignCaseState "bob" ["c1", "c9"] false true).st
          "bob" ["c1", "c9"] false true).st.remote SHEET_ASSOC).map Worksheet.rows
      = some [["bob", "c9"], ["bob", "c1"], ["bob", "c9"], ["bob", "c1"], ["bob", "c9"]] := by
  decide

/-- C10: a push with a non-empty id list in which no local document
satisfies all three selection conditions returns `False`, makes no remote
call, and leaves the state unchanged. -/
theorem push_no_matching_selection_fails (st : SyncState) (username now : String)
    (ids : List String) (createOk appendOk : Bool)
    (hne : ids.isEmpty = false)
    (hsel : st.db.documentos.filter (docMatchesSelection username ids) = []) :
    save_selected_docs_to_sheets st username ids now createOk appendOk
      = ⟨st, false, []⟩ := by
  unfold save_selected_docs_to_sheets
  rw [hne, hsel]
  simp

/-- C10 witness: pushing an id that exists nowhere locally. -/
theorem push_no_matching_selection_fails_witness :
    save_selected_docs_to_sheets ⟨emptyClientsDb, []⟩ "alice" ["nope"] "t0" true true
      = ⟨⟨emptyClientsDb, []⟩, false, []⟩ :=
  push_no_matching_selection_fails ⟨emptyClientsDb, []⟩ "alice" "t0" ["nope"] true true rfl rfl

end Abastecimento
